import Mathlib

/-!
# Verification of the Synergy-AI-Employer backends

A shallow embedding, in Lean 4, of the parts of the Synergy-AI-Employer
repository that its natural-language specification speaks about:

* the weighted ensemble of `EnhancedEnergyPredictorAI`
  (`flask_backend/enhanced_energy_predictor.py`);
* the conflict detection of `EnhancedSpaceOptimizerAI`
  (`flask_backend/enhanced_space_optimizer.py`);
* the FastAPI space-data endpoint and background refresh loop
  (`Backend/main.py`);
* the Firebase service with its in-memory mock fallback
  (`flask_backend/firebase_service.py`);
* the login endpoints of the Flask and FastAPI backends and the
  exception-handling pattern of every HTTP endpoint.

Python numbers are modelled as rationals (`ℚ`), occupancy counts and
capacities as naturals, Python dictionaries as association lists over
`String` keys, and randomness as explicit streams of draws.  Trained
scikit-learn regressors are opaque: they enter the embedding as
uninterpreted functions into `ℚ`.
-/

namespace Synergy

/-! ## Association-list helpers (Python `dict` over string keys) -/

/-- `d.get(k)`: the first binding of `k`, if any. -/
def assocFind {β : Type} (l : List (String × β)) (k : String) : Option β :=
  (l.find? fun p => p.1 == k).map (·.2)

/-- `d[k] = v`: replace the binding of `k` in place if present, else append
(the Python `dict` assignment, which preserves insertion order). -/
def assocInsert {β : Type} (l : List (String × β)) (k : String) (v : β) :
    List (String × β) :=
  if (l.find? fun p => p.1 == k).isSome then
    l.map fun p => if p.1 == k then (k, v) else p
  else l ++ [(k, v)]

theorem assocFind_nil {β : Type} (k : String) : assocFind ([] : List (String × β)) k = none := rfl

theorem assocFind_assocInsert_self {β : Type} (l : List (String × β)) (k : String) (v : β) :
    assocFind (assocInsert l k v) k = some v := by
  unfold assocFind assocInsert
  by_cases h : (l.find? fun p => p.1 == k).isSome = true
  · rw [if_pos h]
    induction l with
    | nil => simp at h
    | cons p t ih =>
      by_cases hp : (p.1 == k) = true
      · rw [List.map_cons, if_pos hp, List.find?_cons_of_pos _ (by simp)]
        rfl
      · rw [List.find?_cons_of_neg (p := fun q : String × β => q.1 == k) t hp] at h
        rw [List.map_cons, if_neg hp]
        rw [List.find?_cons_of_neg (p := fun q : String × β => q.1 == k) _ hp]
        exact ih h
  · rw [if_neg h]
    rw [Option.not_isSome_iff_eq_none] at h
    simp [List.find?_append, h]

/-- Every binding of `assocInsert l k v` is either the new binding `(k, v)`
or a binding of `l` whose key differs from `k`. -/
theorem mem_assocInsert {β : Type} {l : List (String × β)} {k : String} {v : β}
    {p : String × β} (hp : p ∈ assocInsert l k v) :
    p = (k, v) ∨ (p ∈ l ∧ p.1 ≠ k) := by
  unfold assocInsert at hp
  by_cases h : (l.find? fun q => q.1 == k).isSome = true
  · rw [if_pos h] at hp
    obtain ⟨q, hq, hqe⟩ := List.mem_map.mp hp
    by_cases hk : (q.1 == k) = true
    · rw [if_pos hk] at hqe
      exact Or.inl hqe.symm
    · rw [if_neg hk] at hqe
      subst hqe
      exact Or.inr ⟨hq, by simpa using hk⟩
  · rw [if_neg h] at hp
    rcases List.mem_append.mp hp with hp | hp
    · by_cases hk : p.1 = k
      · exact absurd (List.find?_isSome.mpr ⟨p, hp, by simpa using hk⟩) h
      · exact Or.inr ⟨hp, hk⟩
    · exact Or.inl (List.mem_singleton.mp hp)

/-- The binding inserted by `assocInsert` is present. -/
theorem self_mem_assocInsert {β : Type} (l : List (String × β)) (k : String) (v : β) :
    (k, v) ∈ assocInsert l k v := by
  unfold assocInsert
  by_cases h : (l.find? fun q => q.1 == k).isSome
  · simp only [h, if_true, List.mem_map]
    rw [List.find?_isSome] at h
    obtain ⟨p, hp, hk⟩ := h
    exact ⟨p, hp, by simp [hk]⟩
  · simp [h]

/-- Absent keys have no binding: if no binding of `l` carries key `k`,
then `assocFind l k = none`. -/
theorem assocFind_eq_none {β : Type} {l : List (String × β)} {k : String}
    (h : ∀ p ∈ l, p.1 ≠ k) : assocFind l k = none := by
  unfold assocFind
  rw [List.find?_eq_none.mpr]
  · rfl
  · intro p hp
    simpa using h p hp

/-! ## C1 — the weighted energy-consumption ensemble

`EnhancedEnergyPredictorAI.__init__` builds `self.models` as a dict of three
regressors keyed `'primary'` (GradientBoosting), `'secondary'` (RandomForest)
and `'linear'` (Linear).  After `train_ensemble_model` every model carries a
`test_r2` metric.  `predict_energy_consumption` folds over the models,
accumulating `ensemble_prediction += prediction * weight` and
`total_weight += weight` with `weight = max(0.1, test_r2)`, divides, and then
re-runs each model to fill `individual_predictions`.  The trained sklearn
models are opaque; each enters as an uninterpreted function `α → ℚ`. -/

/-- The regressor classes instantiated in `EnhancedEnergyPredictorAI.__init__`. -/
inductive RegressorKind : Type
  | gradientBoosting
  | randomForest
  | linearRegression
deriving DecidableEq

/-- One entry of `self.models` after training: its dict key, its class, its
(opaque) scaled-and-fitted prediction function, and its
`model_metrics['individual_models'][name]['test_r2']`. -/
structure EnsembleModel (α : Type) where
  name : String
  kind : RegressorKind
  predict : α → ℚ
  testR2 : ℚ

/-- The ensemble built by `__init__` (dict order `primary`, `secondary`,
`linear`), with the trained predictors and test-R² metrics abstracted. -/
def energyModels {α : Type} (fp fs fl : α → ℚ) (rp rs rl : ℚ) :
    List (EnsembleModel α) :=
  [⟨"primary", RegressorKind.gradientBoosting, fp, rp⟩,
   ⟨"secondary", RegressorKind.randomForest, fs, rs⟩,
   ⟨"linear", RegressorKind.linearRegression, fl, rl⟩]

/-- The fields of the dict returned by `predict_energy_consumption` that the
claims constrain (cost breakdown and recommendations omitted). -/
structure EnergyPrediction where
  predicted_consumption : ℚ
  predicted_cost : ℚ
  individual_predictions : List (String × ℚ)

/-- `predict_energy_consumption` (lines 383–424): the weighting loop over
`self.models.items()`, the division by `total_weight`, the cost, and the
second loop recomputing each model's prediction. -/
def predict_energy_consumption {α : Type} (models : List (EnsembleModel α))
    (x : α) (rate : ℚ) : EnergyPrediction :=
  let acc := models.foldl
    (fun (acc : ℚ × ℚ) m =>
      let w := max (1/10) m.testR2
      (acc.1 + m.predict x * w, acc.2 + w))
    ((0 : ℚ), (0 : ℚ))
  let ensemble := acc.1 / acc.2
  { predicted_consumption := ensemble
    predicted_cost := ensemble * rate
    individual_predictions := models.map fun m => (m.name, m.predict x) }

/-- C1.  Once trained, `predict_energy_consumption` returns
`predicted_consumption` equal to the weighted average `(Σ wᵢ pᵢ) / (Σ wᵢ)` of
the predictions of exactly the three regressors `primary` (GradientBoosting),
`secondary` (RandomForest) and `linear` (Linear), with `wᵢ = max(0.1, test R²ᵢ)`,
and `individual_predictions` maps each of those three names to its `pᵢ`. -/
theorem predict_energy_consumption_is_weighted_average {α : Type}
    (fp fs fl : α → ℚ) (rp rs rl : ℚ) (x : α) (rate : ℚ) :
    (predict_energy_consumption (energyModels fp fs fl rp rs rl) x rate).predicted_consumption
      = (max (1/10) rp * fp x + max (1/10) rs * fs x + max (1/10) rl * fl x)
        / (max (1/10) rp + max (1/10) rs + max (1/10) rl)
    ∧ (predict_energy_consumption (energyModels fp fs fl rp rs rl) x rate).individual_predictions
      = [("primary", fp x), ("secondary", fs x), ("linear", fl x)]
    ∧ (energyModels fp fs fl rp rs rl).map (fun m => m.kind)
      = [RegressorKind.gradientBoosting, RegressorKind.randomForest,
         RegressorKind.linearRegression]
    ∧ (energyModels fp fs fl rp rs rl).length = 3 := by
  refine ⟨?_, rfl, rfl, rfl⟩
  show (0 + fp x * max (1/10) rp + fs x * max (1/10) rs + fl x * max (1/10) rl)
      / (0 + max (1/10) rp + max (1/10) rs + max (1/10) rl) = _
  congr 1 <;> ring

/-! ## C2 — conflict detection in `EnhancedSpaceOptimizerAI`

`detect_conflicts` (lines 343–421) walks the input spaces, appends a
conflict record per violated threshold of `self.optimization_thresholds`,
collects the spaces with a nonempty conflict list together with a
`total_severity` score, and returns them sorted by decreasing score
(Python's `sorted(..., reverse=True)`, a stable sort, modelled by
`List.mergeSort`). -/

/-- A space dictionary as read by `detect_conflicts`; each field models the
corresponding `space.get(key, default)` value.  Occupancy and capacity are
the nonnegative integer counts the program produces; environmental readings
are rationals.  The formatted `message`/`recommendation` strings of each
conflict are not modelled. -/
structure SpaceDict where
  id : String
  name : String
  current_occupancy : ℕ
  capacity : ℕ
  temperature : ℚ
  humidity : ℚ
  co2_level : ℚ
  noise_level : ℚ
deriving DecidableEq

/-- Severity levels attached to conflicts. -/
inductive Severity : Type
  | high
  | medium
  | low
deriving DecidableEq, BEq

/-- One entry of a space's conflict list (its `type` and `severity`). -/
structure ConflictItem where
  type : String
  severity : Severity
deriving DecidableEq, BEq

/-- `self.optimization_thresholds` of `EnhancedSpaceOptimizerAI.__init__`. -/
def occupancy_warning : ℚ := 85/100
def occupancy_critical : ℚ := 95/100
def temperature_min : ℚ := 20
def temperature_max : ℚ := 26
def humidity_min : ℚ := 30
def humidity_max : ℚ := 70
def co2_max : ℚ := 1000
def noise_max : ℚ := 70

/-- `utilization = current_occupancy / capacity if capacity > 0 else 0`. -/
def utilizationOf (s : SpaceDict) : ℚ :=
  if 0 < s.capacity then (s.current_occupancy : ℚ) / (s.capacity : ℚ) else 0

/-- The per-space conflict list built by the body of the loop in
`detect_conflicts`: critical/warning overcrowding (an `if`/`elif`), then
temperature, humidity, CO₂ and noise checks. -/
def space_conflicts (s : SpaceDict) : List ConflictItem :=
  (if occupancy_critical < utilizationOf s then
      [⟨"critical_overcrowding", Severity.high⟩]
    else if occupancy_warning < utilizationOf s then
      [⟨"overcrowding_warning", Severity.medium⟩]
    else [])
  ++ (if s.temperature < temperature_min ∨ temperature_max < s.temperature then
      [⟨"temperature_issue", Severity.medium⟩] else [])
  ++ (if s.humidity < humidity_min ∨ humidity_max < s.humidity then
      [⟨"humidity_issue", Severity.low⟩] else [])
  ++ (if co2_max < s.co2_level then
      [⟨"air_quality_issue", Severity.high⟩] else [])
  ++ (if noise_max < s.noise_level then
      [⟨"noise_issue", Severity.medium⟩] else [])

/-- An element of the list returned by `detect_conflicts` (the
`timestamp` field is not modelled). -/
structure SpaceConflictEntry where
  space_id : String
  space_name : String
  conflicts : List ConflictItem
  total_severity : ℕ
deriving DecidableEq

/-- Number of conflicts of a given severity in a conflict list. -/
def severityCount (cs : List ConflictItem) (sv : Severity) : ℕ :=
  (cs.filter fun c => c.severity == sv).length

/-- The record appended for a space with a nonempty conflict list:
`total_severity` is `3·#high + 2·#medium + 1·#low`. -/
def mkConflictEntry (s : SpaceDict) : SpaceConflictEntry :=
  let cs := space_conflicts s
  { space_id := s.id
    space_name := s.name
    conflicts := cs
    total_severity :=
      3 * severityCount cs Severity.high + 2 * severityCount cs Severity.medium
        + severityCount cs Severity.low }

/-- The comparator of `sorted(conflicts, key=lambda x: x['total_severity'],
reverse=True)`. -/
def severityGE (a b : SpaceConflictEntry) : Bool :=
  decide (b.total_severity ≤ a.total_severity)

/-- `detect_conflicts`: collect the spaces with conflicts, then sort by
decreasing `total_severity` (both Python's sort and `mergeSort` are stable,
so the embedding returns the same list). -/
def detect_conflicts (spaces : List SpaceDict) : List SpaceConflictEntry :=
  (spaces.filterMap fun s =>
      if (space_conflicts s).isEmpty then none else some (mkConflictEntry s)).mergeSort
    severityGE

/-- The claim's utilization: `occupancy/capacity`, taken to be 0 when the
capacity is 0 (stated from the claim's words, for comparison with
`utilizationOf` from the source). -/
def claimUtilization (s : SpaceDict) : ℚ :=
  if s.capacity = 0 then 0 else (s.current_occupancy : ℚ) / (s.capacity : ℚ)

/-- The claim's disjunction of threshold comparisons, stated from the
claim's words. -/
def thresholdFires (s : SpaceDict) : Prop :=
  (claimUtilization s > 95/100 ∨ claimUtilization s > 85/100)
  ∨ s.temperature < 20 ∨ s.temperature > 26
  ∨ s.humidity < 30 ∨ s.humidity > 70
  ∨ s.co2_level > 1000 ∨ s.noise_level > 70

instance : DecidablePred thresholdFires := fun s => by
  unfold thresholdFires
  infer_instance

theorem claimUtilization_eq (s : SpaceDict) : claimUtilization s = utilizationOf s := by
  unfold claimUtilization utilizationOf
  rcases Nat.eq_zero_or_pos s.capacity with h | h
  · simp [h]
  · rw [if_neg (Nat.pos_iff_ne_zero.mp h), if_pos h]

/-- A space contributes a conflict record iff the claim's threshold
disjunction fires. -/
theorem space_conflicts_eq_nil_iff (s : SpaceDict) :
    space_conflicts s = [] ↔ ¬ thresholdFires s := by
  unfold space_conflicts thresholdFires
  rw [claimUtilization_eq,
    show occupancy_critical = 95/100 from rfl, show occupancy_warning = 85/100 from rfl,
    show temperature_min = (20 : ℚ) from rfl, show temperature_max = (26 : ℚ) from rfl,
    show humidity_min = (30 : ℚ) from rfl, show humidity_max = (70 : ℚ) from rfl,
    show co2_max = (1000 : ℚ) from rfl, show noise_max = (70 : ℚ) from rfl]
  split_ifs with h1 h2 h3 h4 h5 h6 <;> simp_all <;> intros <;>
    casesm* _ ∨ _, _ ∧ _ <;> linarith

/-- Collecting the conflicting spaces equals filtering by the claim's
threshold predicate. -/
theorem filterMap_conflicts_eq (spaces : List SpaceDict) :
    (spaces.filterMap fun s =>
        if (space_conflicts s).isEmpty then none else some (mkConflictEntry s))
      = (spaces.filter fun s => decide (thresholdFires s)).map mkConflictEntry := by
  induction spaces with
  | nil => rfl
  | cons s t ih =>
    rw [List.filter_cons]
    by_cases h : thresholdFires s
    · have hne : (space_conflicts s).isEmpty = false := by
        rw [List.isEmpty_eq_false]
        exact fun hc => (space_conflicts_eq_nil_iff s).mp hc h
      have hsome : (if (space_conflicts s).isEmpty = true then none
          else some (mkConflictEntry s)) = some (mkConflictEntry s) := by
        rw [hne]; simp
      rw [List.filterMap_cons_some
          (f := fun s => if (space_conflicts s).isEmpty = true then none
            else some (mkConflictEntry s)) hsome,
        if_pos (by simpa using h), List.map_cons, ih]
    · have hnil : (space_conflicts s).isEmpty = true := by
        rw [List.isEmpty_eq_true]
        exact (space_conflicts_eq_nil_iff s).mpr h
      have hnone : (if (space_conflicts s).isEmpty = true then none
          else some (mkConflictEntry s)) = (none : Option SpaceConflictEntry) := by
        rw [hnil]; simp
      rw [List.filterMap_cons_none
          (f := fun s => if (space_conflicts s).isEmpty = true then none
            else some (mkConflictEntry s)) hnone,
        if_neg (by simpa using h), ih]

/-- C2.  `detect_conflicts` returns exactly one entry per space whose
threshold disjunction fires (a permutation of them, in sorted order), the
output is sorted by decreasing `total_severity`, and every returned
`total_severity` equals `3·#high + 2·#medium + 1·#low` over that space's
conflicts. -/
theorem detect_conflicts_spec (spaces : List SpaceDict) :
    (detect_conflicts spaces).Perm
        ((spaces.filter fun s => decide (thresholdFires s)).map mkConflictEntry)
    ∧ (detect_conflicts spaces).Pairwise
        (fun a b => b.total_severity ≤ a.total_severity)
    ∧ ∀ e ∈ detect_conflicts spaces,
        e.total_severity
          = 3 * severityCount e.conflicts Severity.high
            + 2 * severityCount e.conflicts Severity.medium
            + severityCount e.conflicts Severity.low := by
  have hperm : (detect_conflicts spaces).Perm
      ((spaces.filter fun s => decide (thresholdFires s)).map mkConflictEntry) := by
    unfold detect_conflicts
    exact (List.mergeSort_perm _ _).trans (by rw [filterMap_conflicts_eq])
  refine ⟨hperm, ?_, ?_⟩
  · have hs : (detect_conflicts spaces).Pairwise (fun a b => severityGE a b = true) := by
      unfold detect_conflicts
      exact List.sorted_mergeSort
        (fun a b c hab hbc => by
          simp only [severityGE, decide_eq_true_iff] at hab hbc ⊢
          omega)
        (fun a b => by
          simp only [severityGE]
          rcases Nat.le_total b.total_severity a.total_severity with h | h <;> simp [h]) _
    exact hs.imp fun h => by simpa [severityGE] using h
  · intro e he
    have : e ∈ (spaces.filter fun s => decide (thresholdFires s)).map mkConflictEntry :=
      hperm.mem_iff.mp he
    obtain ⟨s, _, rfl⟩ := List.mem_map.mp this
    rfl

/-- A concrete overcrowded space (occupancy 10 of capacity 10). -/
def demoSpace : SpaceDict :=
  { id := "s1", name := "Space 1", current_occupancy := 10, capacity := 10,
    temperature := 22, humidity := 45, co2_level := 400, noise_level := 45 }

/-- Witness for C2: the specification applied to a concrete space list, with
the membership hypothesis discharged by evaluation. -/
theorem detect_conflicts_spec_witness :
    (detect_conflicts [demoSpace]).Pairwise
      (fun a b => b.total_severity ≤ a.total_severity)
    ∧ (mkConflictEntry demoSpace).total_severity
        = 3 * severityCount (mkConflictEntry demoSpace).conflicts Severity.high
          + 2 * severityCount (mkConflictEntry demoSpace).conflicts Severity.medium
          + severityCount (mkConflictEntry demoSpace).conflicts Severity.low :=
  ⟨(detect_conflicts_spec [demoSpace]).2.1,
   (detect_conflicts_spec [demoSpace]).2.2 (mkConflictEntry demoSpace) (by
      have hd : detect_conflicts [demoSpace] = [mkConflictEntry demoSpace] := by
        unfold detect_conflicts
        have hfires : (space_conflicts demoSpace).isEmpty = false := by
          unfold space_conflicts utilizationOf demoSpace
          norm_num [occupancy_critical, occupancy_warning, temperature_min,
            temperature_max, humidity_min, humidity_max, co2_max, noise_max]
        have hsome : (if (space_conflicts demoSpace).isEmpty = true then none
            else some (mkConflictEntry demoSpace)) = some (mkConflictEntry demoSpace) := by
          rw [hfires]; simp
        rw [List.filterMap_cons_some
            (f := fun s => if (space_conflicts s).isEmpty = true then none
              else some (mkConflictEntry s)) hsome, List.filterMap_nil,
          List.mergeSort_singleton]
      rw [hd]
      exact List.mem_singleton.mpr rfl)⟩

/-! ## C3 — utilization ranges

Two emitters of utilization values are cited: the FastAPI endpoint
`GET /api/data/spaces` (`Backend/main.py` 335–360), which divides
`np.random.randint(10, 60)` occupants by `np.random.randint(50, 80)`
capacity, and `EnhancedSpaceOptimizerAI.predict_utilization`
(`enhanced_space_optimizer.py` 284–315), which returns the raw regressor
output with no clamping.  Randomness is modelled by explicit streams: `g`
supplies the raw `randint` draws (`randint(low, high)` yields
`low + g k % (high - low)`, exactly the support `[low, high)`), `u` the
`uniform` draws in `[0, 1]`. -/

/-- `np.random.randint(low, high)`: an integer uniform on `[low, high)`,
realised from a raw stream value `r` as `low + r % (high - low)`. -/
def npRandint (low high r : ℕ) : ℕ := low + r % (high - low)

/-- `np.random.uniform(a, b)` realised from a raw draw `u ∈ [0, 1]`. -/
def npUniform (a b u : ℚ) : ℚ := a + (b - a) * u

/-- One element of the list returned by `GET /api/data/spaces`. -/
structure SpaceDataEntry where
  name : String
  current : ℕ
  capacity : ℕ
  utilization : ℚ
  efficiency : ℚ
  status : String
deriving DecidableEq

/-- The four space categories iterated by the endpoint. -/
def spaceNames : List String :=
  ["Open Desks", "Meeting Rooms", "Quiet Zones", "Collaborative Areas"]

/-- The body of the endpoint's loop for the `i`-th space name. -/
def mkSpaceDataEntry (g : ℕ → ℕ) (u : ℕ → ℚ) (p : ℕ × String) : SpaceDataEntry :=
  let current := npRandint 10 60 (g (2 * p.1))
  let capacity := npRandint 50 80 (g (2 * p.1 + 1))
  let util : ℚ := (current : ℚ) / (capacity : ℚ)
  { name := p.2
    current := current
    capacity := capacity
    utilization := util
    efficiency := npUniform 60 100 (u p.1)
    status := if util > 8/10 then "overutilized"
      else if util > 4/10 then "optimal" else "underutilized" }

/-- The FastAPI endpoint `GET /api/data/spaces`. -/
def get_space_data (g : ℕ → ℕ) (u : ℕ → ℚ) : List SpaceDataEntry :=
  spaceNames.enum.map (mkSpaceDataEntry g u)

/-- The input dictionary of `predict_utilization` with the `.get` defaults
applied; the features consumed only by the regressor pipeline are folded
into the opaque model input. -/
structure SpaceInput where
  capacity : ℚ
  temperature : ℚ
  humidity : ℚ
  co2_level : ℚ
  noise_level : ℚ
  air_quality : ℚ
deriving DecidableEq

/-- `int(x)`: Python truncation toward zero. -/
def pyInt (q : ℚ) : ℤ := if 0 ≤ q then ⌊q⌋ else ⌈q⌉

/-- `_calculate_single_efficiency` (lines 317–341). -/
def calculate_single_efficiency (d : SpaceInput) (utilization : ℚ) : ℚ :=
  let e0 := utilization * 100
  let e1 := if d.temperature < 20 ∨ d.temperature > 26 then e0 - 10 else e0
  let e2 := if d.humidity < 30 ∨ d.humidity > 70 then e1 - 5 else e1
  let e3 := if d.co2_level > 1000 then e2 - 15 else e2
  let e4 := if d.noise_level > 65 then e3 - 8 else e3
  let e5 := e4 + (d.air_quality - 50) * (2/10)
  max 0 (min 100 e5)

/-- The dict returned by `predict_utilization`. -/
structure UtilizationPrediction where
  predicted_utilization : ℚ
  confidence : ℚ
  recommended_capacity : ℤ
  efficiency_score : ℚ

/-- `predict_utilization` (lines 284–315): the trained pipeline
(label encoders, scaler and GradientBoosting regressor) is the opaque
`model`; its raw output is returned as `predicted_utilization` — no
clamping is applied. -/
def predict_utilization (model : SpaceInput → ℚ) (d : SpaceInput) :
    UtilizationPrediction :=
  let prediction := model d
  { predicted_utilization := prediction
    confidence := min (95/100) (max (6/10) (1 - |prediction - 1/2| * (1/2)))
    recommended_capacity := pyInt (d.capacity * prediction)
    efficiency_score := calculate_single_efficiency d prediction }

/-- C3 exactly as claimed, for refutation: every `utilization` field of the
space-data endpoint and every `predicted_utilization` lies in `[0, 1]`. -/
def claimC3 : Prop :=
  (∀ (g : ℕ → ℕ) (u : ℕ → ℚ), (∀ n, 0 ≤ u n ∧ u n ≤ 1) →
    ∀ e ∈ get_space_data g u, 0 ≤ e.utilization ∧ e.utilization ≤ 1)
  ∧ ∀ (model : SpaceInput → ℚ) (d : SpaceInput),
      0 ≤ (predict_utilization model d).predicted_utilization
      ∧ (predict_utilization model d).predicted_utilization ≤ 1

/-- The raw integer stream whose first draw makes `current = 59` and whose
second makes `capacity = 50`. -/
def cexStream : ℕ → ℕ := fun n => if n = 0 then 49 else 0

/-- A uniform stream that constantly draws 0. -/
def cexUniform : ℕ → ℚ := fun _ => 0

theorem mem_get_space_data_cex :
    mkSpaceDataEntry cexStream cexUniform (0, "Open Desks")
      ∈ get_space_data cexStream cexUniform :=
  List.mem_map.mpr ⟨(0, "Open Desks"), by decide, rfl⟩

theorem utilization_cex :
    (mkSpaceDataEntry cexStream cexUniform (0, "Open Desks")).utilization = 59/50 := by
  show ((npRandint 10 60 (cexStream 0) : ℕ) : ℚ) / ((npRandint 50 80 (cexStream 1) : ℕ) : ℚ)
      = 59/50
  norm_num [npRandint, cexStream]

/-- C3 is false on the code: with `randint(10, 60)` drawing 59 occupants
and `randint(50, 80)` drawing capacity 50, the endpoint emits
`utilization = 59/50 > 1`. -/
theorem claimC3_counterexample : ¬ claimC3 := by
  intro h
  have hle := (h.1 cexStream cexUniform (fun n => by norm_num [cexUniform])
    _ mem_get_space_data_cex).2
  rw [utilization_cex] at hle
  norm_num at hle

/-- C3 (amended).  Every `utilization` field of the space-data endpoint lies
in `[10/79, 59/50]` — it exceeds 1 exactly when the sampled occupancy
(10–59) exceeds the sampled capacity (50–79) — and `predict_utilization`
returns the regressor's raw output unclamped, hence `predicted_utilization`
lies in `[0, 1]` whenever the regressor's output does. -/
theorem utilization_range_spec :
    (∀ (g : ℕ → ℕ) (u : ℕ → ℚ), ∀ e ∈ get_space_data g u,
        10/79 ≤ e.utilization ∧ e.utilization ≤ 59/50)
    ∧ (∀ (model : SpaceInput → ℚ) (d : SpaceInput),
        (predict_utilization model d).predicted_utilization = model d)
    ∧ (∀ (model : SpaceInput → ℚ) (d : SpaceInput),
        0 ≤ model d → model d ≤ 1 →
          0 ≤ (predict_utilization model d).predicted_utilization
          ∧ (predict_utilization model d).predicted_utilization ≤ 1) := by
  refine ⟨?_, fun model d => rfl, ?_⟩
  · intro g u e he
    obtain ⟨p, _, rfl⟩ := List.mem_map.mp he
    have hcur : 10 ≤ npRandint 10 60 (g (2 * p.1)) ∧ npRandint 10 60 (g (2 * p.1)) ≤ 59 := by
      unfold npRandint
      have := Nat.mod_lt (g (2 * p.1)) (y := 60 - 10) (by norm_num)
      omega
    have hcap : 50 ≤ npRandint 50 80 (g (2 * p.1 + 1))
        ∧ npRandint 50 80 (g (2 * p.1 + 1)) ≤ 79 := by
      unfold npRandint
      have := Nat.mod_lt (g (2 * p.1 + 1)) (y := 80 - 50) (by norm_num)
      omega
    have hcurQ : (10 : ℚ) ≤ (npRandint 10 60 (g (2 * p.1)) : ℚ)
        ∧ (npRandint 10 60 (g (2 * p.1)) : ℚ) ≤ 59 := by
      exact_mod_cast hcur
    have hcapQ : (50 : ℚ) ≤ (npRandint 50 80 (g (2 * p.1 + 1)) : ℚ)
        ∧ (npRandint 50 80 (g (2 * p.1 + 1)) : ℚ) ≤ 79 := by
      exact_mod_cast hcap
    show 10/79 ≤ (npRandint 10 60 (g (2 * p.1)) : ℚ) / (npRandint 50 80 (g (2 * p.1 + 1)) : ℚ)
      ∧ (npRandint 10 60 (g (2 * p.1)) : ℚ) / (npRandint 50 80 (g (2 * p.1 + 1)) : ℚ) ≤ 59/50
    constructor
    · rw [div_le_div_iff₀ (by norm_num) (by linarith [hcapQ.1])]
      nlinarith [hcurQ.1, hcapQ.2]
    · rw [div_le_div_iff₀ (by linarith [hcapQ.1]) (by norm_num)]
      nlinarith [hcurQ.2, hcapQ.1]
  · intro model d h0 h1
    exact ⟨h0, h1⟩

/-- A concrete prediction input (the `.get` defaults of the source). -/
def demoSpaceInput : SpaceInput :=
  { capacity := 10, temperature := 22, humidity := 45, co2_level := 400,
    noise_level := 45, air_quality := 75 }

/-- Witness for the amended C3: the bounds hold at the concrete endpoint
output above, and a model output of 1/2 stays in `[0, 1]`. -/
theorem utilization_range_spec_witness :
    (10/79 ≤ (mkSpaceDataEntry cexStream cexUniform (0, "Open Desks")).utilization
      ∧ (mkSpaceDataEntry cexStream cexUniform (0, "Open Desks")).utilization ≤ 59/50)
    ∧ (0 ≤ (predict_utilization (fun _ => 1/2) demoSpaceInput).predicted_utilization
      ∧ (predict_utilization (fun _ => 1/2) demoSpaceInput).predicted_utilization ≤ 1) :=
  ⟨utilization_range_spec.1 cexStream cexUniform _ mem_get_space_data_cex,
   utilization_range_spec.2.2 (fun _ => 1/2) demoSpaceInput (by norm_num) (by norm_num)⟩

/-! ## C4 — the background refresh loop

`refresh_data_periodically` (`Backend/main.py` 1607–1622) is an `async`
loop started once by the `startup` event handler via
`asyncio.create_task` (line 1627).  Its body refreshes three endpoints and
then `await asyncio.sleep(30)`; the blanket `except Exception` handler also
sleeps 30 seconds (line 1622) before retrying.  Real time is modelled by
the argument passed to `sleep`. -/

/-- How the background loop is started at application startup. -/
inductive BackgroundStartMechanism : Type
  | asyncioTask
  | daemonThread
deriving DecidableEq

/-- The loop is started with `asyncio.create_task(refresh_data_periodically())`. -/
def refresh_loop_mechanism : BackgroundStartMechanism :=
  BackgroundStartMechanism.asyncioTask

/-- The `startup` event handler creates exactly one background task. -/
def startup_background_tasks : ℕ := 1

/-- Seconds slept after one iteration of the loop, by body outcome:
`await asyncio.sleep(30)` on success, `await asyncio.sleep(30)` in the
`except Exception` handler. -/
def refresh_sleep_seconds : Except String Unit → ℕ
  | Except.ok _ => 30
  | Except.error _ => 30

/-- Total seconds slept over `n` iterations with the given outcome stream. -/
def refresh_total_sleep (outcomes : ℕ → Except String Unit) : ℕ → ℕ
  | 0 => 0
  | n + 1 => refresh_total_sleep outcomes n + refresh_sleep_seconds (outcomes n)

/-- C4 exactly as claimed, for refutation: a daemon thread, 30 s between
successful iterations, 60 s retry after an exception. -/
def claimC4 : Prop :=
  refresh_loop_mechanism = BackgroundStartMechanism.daemonThread
  ∧ refresh_sleep_seconds (Except.ok ()) = 30
  ∧ ∀ e, refresh_sleep_seconds (Except.error e) = 60

/-- C4 is false on the code: the handler retries after 30 seconds, not 60
(and the loop is an asyncio task, not a daemon thread). -/
theorem refresh_loop_counterexample : ¬ claimC4 := by
  intro h
  have h60 := h.2.2 "refresh error"
  simp [refresh_sleep_seconds] at h60

/-- C4 (amended).  The one background refresh loop is a single asyncio
background task created at startup; every iteration — successful or failed —
is followed by a fixed 30-second sleep, so `n` iterations sleep `30·n`
seconds whatever the outcomes. -/
theorem refresh_loop_spec :
    refresh_loop_mechanism = BackgroundStartMechanism.asyncioTask
    ∧ startup_background_tasks = 1
    ∧ (∀ o, refresh_sleep_seconds o = 30)
    ∧ ∀ (outcomes : ℕ → Except String Unit) (n : ℕ),
        refresh_total_sleep outcomes n = 30 * n := by
  refine ⟨rfl, rfl, fun o => by cases o <;> rfl, ?_⟩
  intro outcomes n
  induction n with
  | zero => rfl
  | succ n ih =>
    show refresh_total_sleep outcomes n + refresh_sleep_seconds (outcomes n) = 30 * (n + 1)
    rw [ih]
    cases outcomes n <;> simp [refresh_sleep_seconds] <;> ring

/-! ## C5 / C6 / C10 — the Firebase service

`FirebaseService` (`flask_backend/firebase_service.py`) holds either a real
RTDB handle or, after `_initialize_firebase` catches an initialization
exception, the in-memory `mock_data` dict of `_initialize_mock_database`.
Every data operation branches on `hasattr(self, 'mock_data')`.  The real
RTDB is opaque; reads from it are oracles passed to each operation, writes
to it are recorded in a path log.  Readings and predictions are opaque
documents. -/

/-- An opaque JSON document (the contents are never inspected). -/
abbrev Doc := String

/-- An employee record of a company (the fields `authenticate_user` reads). -/
structure Employee where
  id : String
  name : String
  email : String
  role : String
  department : String
deriving DecidableEq

/-- A company record (settings and spaces are not read by the embedded
operations and are omitted). -/
structure Company where
  company_id : String
  name : String
  employees : List Employee
deriving DecidableEq

/-- A stored AI prediction (`store_ai_prediction` stamps `model_type` and a
timestamp onto the caller's dict, kept here as an opaque payload). -/
structure Prediction where
  model_type : String
  payload : Doc
  timestamp : ℕ
deriving DecidableEq

/-- A stored conflict: `store_conflict` stamps `id`, `timestamp`,
`status = 'open'` and `company_id` onto the caller's dict (the opaque
`payload`); `resolve_conflict` later sets `status`, `resolution` and
`resolved_at`. -/
structure ConflictRecord where
  id : String
  payload : Doc
  timestamp : ℕ
  status : String
  company_id : String
  resolution : Option String
  resolved_at : Option ℕ
deriving DecidableEq

/-- The mock database of `_initialize_mock_database`: six collections. -/
structure MockDB where
  companies : List (String × Company)
  space_data : List (String × List Doc)
  energy_data : List (String × List Doc)
  ai_predictions : List (String × List Prediction)
  conflicts : List (String × List (String × ConflictRecord))
  user_sessions : List (String × Doc)
deriving DecidableEq

/-- The six collections start empty. -/
def emptyMockDB : MockDB :=
  { companies := [], space_data := [], energy_data := [],
    ai_predictions := [], conflicts := [], user_sessions := [] }

/-- The service state: `self.database_url`, the optional `self.mock_data`,
`self.is_connected`, and the log of paths written to the real RTDB. -/
structure ServiceState where
  database_url : String
  mock_data : Option MockDB
  is_connected : Bool
  firebase_writes : List String
deriving DecidableEq

/-- The default constructor argument. -/
def default_database_url : String :=
  "https://synergy-ai-platform-default-rtdb.firebaseio.com/"

/-- `_initialize_firebase` (lines 36–59): on success keep the real handle
(`_initialize_database_structure` then writes the sample company and the
sample operational data to the RTDB); on any exception fall back to
`_initialize_mock_database`, which creates the six empty collections and
sets `is_connected = True`. -/
def init_firebase (r : Except String Unit) : ServiceState :=
  match r with
  | Except.ok _ =>
      { database_url := default_database_url
        mock_data := none
        is_connected := true
        firebase_writes := ["companies/demo_company", "energy_data/demo_company",
          "space_data/demo_company"] }
  | Except.error _ =>
      { database_url := default_database_url
        mock_data := some emptyMockDB
        is_connected := true
        firebase_writes := [] }

/-- The Python slice `xs[-hours:]` (note that `xs[-0:]` is the whole list). -/
def pyLastSlice {α : Type} (xs : List α) (hours : ℕ) : List α :=
  if hours = 0 then xs else xs.drop (xs.length - hours)

namespace FirebaseService

/-- `get_company_data`: the mock branch reads `mock_data['companies']`, the
Firebase branch consults the RTDB oracle `fb`. -/
def get_company_data (fb : String → Option Company) (s : ServiceState)
    (company_id : String) : Option Company :=
  match s.mock_data with
  | some m => assocFind m.companies company_id
  | none => fb company_id

/-- `get_space_data`: the last `hours` entries of the mock collection, or an
RTDB query. -/
def get_space_data (fb : String → ℕ → List Doc) (s : ServiceState)
    (company_id : String) (hours : ℕ) : List Doc :=
  match s.mock_data with
  | some m => pyLastSlice ((assocFind m.space_data company_id).getD []) hours
  | none => fb company_id hours

/-- `get_energy_data`, symmetric to `get_space_data`. -/
def get_energy_data (fb : String → ℕ → List Doc) (s : ServiceState)
    (company_id : String) (hours : ℕ) : List Doc :=
  match s.mock_data with
  | some m => pyLastSlice ((assocFind m.energy_data company_id).getD []) hours
  | none => fb company_id hours

/-- `store_ai_prediction`: stamp the prediction and append it to the mock
list of its company (or push it to the RTDB). -/
def store_ai_prediction (t : ℕ) (s : ServiceState) (company_id model_type : String)
    (payload : Doc) : ServiceState :=
  let pred : Prediction := { model_type := model_type, payload := payload, timestamp := t }
  match s.mock_data with
  | some m =>
      let cur := (assocFind m.ai_predictions company_id).getD []
      let m2 := { m with
        ai_predictions := assocInsert m.ai_predictions company_id (cur ++ [pred]) }
      { s with mock_data := some m2 }
  | none =>
      { s with firebase_writes := s.firebase_writes ++ ["ai_predictions/" ++ company_id] }

/-- `store_conflict` (lines 346–372): mint `conflict_id` from the current
time, stamp the record with `status = 'open'`, store it under
`conflicts[company_id][conflict_id]`, and return the id. -/
def store_conflict (t : ℕ) (s : ServiceState) (company_id : String) (payload : Doc) :
    Option String × ServiceState :=
  let conflict_id := "conflict_" ++ toString t
  let record : ConflictRecord :=
    { id := conflict_id, payload := payload, timestamp := t, status := "open",
      company_id := company_id, resolution := none, resolved_at := none }
  match s.mock_data with
  | some m =>
      let cmap := (assocFind m.conflicts company_id).getD []
      let m2 := { m with
        conflicts := assocInsert m.conflicts company_id (assocInsert cmap conflict_id record) }
      (some conflict_id, { s with mock_data := some m2 })
  | none =>
      (some conflict_id,
        { s with firebase_writes := s.firebase_writes ++
            ["conflicts/" ++ company_id ++ "/" ++ conflict_id] })

/-- `get_active_conflicts` (lines 374–389): the stored conflicts of the
company whose status is `'open'`. -/
def get_active_conflicts (fb : String → List ConflictRecord) (s : ServiceState)
    (company_id : String) : List ConflictRecord :=
  match s.mock_data with
  | some m =>
      (((assocFind m.conflicts company_id).getD []).map (fun p => p.2)).filter
        fun c => c.status == "open"
  | none => fb company_id

/-- `resolve_conflict` (lines 391–414): in mock mode, mark the conflict
resolved and return `True` when it exists, otherwise fall off the function
(Python returns `None`, modelled as `none`); the Firebase branch updates the
path unconditionally and returns `True`. -/
def resolve_conflict (t : ℕ) (s : ServiceState) (company_id conflict_id : String)
    (resolution : String) : Option Bool × ServiceState :=
  match s.mock_data with
  | some m =>
      match assocFind m.conflicts company_id with
      | some cmap =>
          match assocFind cmap conflict_id with
          | some r =>
              let r2 := { r with
                status := "resolved"
                resolution := some resolution
                resolved_at := some t }
              let m2 := { m with
                conflicts := assocInsert m.conflicts company_id
                  (assocInsert cmap conflict_id r2) }
              (some true, { s with mock_data := some m2 })
          | none => (none, s)
      | none => (none, s)
  | none =>
      (some true,
        { s with firebase_writes := s.firebase_writes ++
            ["conflicts/" ++ company_id ++ "/" ++ conflict_id] })

/-- The user dict returned by `authenticate_user` (`last_login` omitted;
the admin record carries no department). -/
structure UserRecord where
  id : String
  email : String
  name : String
  role : String
  department : Option String
  company_id : String
  permissions : List String
deriving DecidableEq

/-- The hardcoded admin record. -/
def mkAdminUser (email : String) : UserRecord :=
  { id := "admin_001", email := email, name := "Admin User", role := "admin",
    department := none, company_id := "demo_company",
    permissions := ["read", "write", "admin"] }

/-- The record built for a matching employee. -/
def mkEmployeeUser (e : Employee) (email : String) : UserRecord :=
  { id := e.id, email := email, name := e.name, role := e.role,
    department := some e.department, company_id := "demo_company",
    permissions := if e.role == "Senior" then ["read", "write"] else ["read"] }

/-- The employee loop of `authenticate_user`: return on the first employee
whose email matches when the password is the demo password, else continue. -/
def authEmployeeLoop : List Employee → String → String → Option UserRecord
  | [], _, _ => none
  | e :: rest, email, password =>
      if e.email == email && password == "password" then some (mkEmployeeUser e email)
      else authEmployeeLoop rest email password

/-- `authenticate_user` (lines 416–450): the hardcoded admin check, then the
demo company's employee list. -/
def authenticate_user (fb : String → Option Company) (s : ServiceState)
    (email password : String) : Option UserRecord :=
  if email == "admin@demo.com" && password == "password" then some (mkAdminUser email)
  else
    match get_company_data fb s "demo_company" with
    | some c => authEmployeeLoop c.employees email password
    | none => none

/-- The dict returned by `health_check` (lines 531–540); the timestamp is
omitted. -/
structure HealthReport where
  status : String
  database_url : String
  using_mock : Bool
deriving DecidableEq

/-- `health_check`. -/
def health_check (s : ServiceState) : HealthReport :=
  { status := if s.is_connected then "healthy" else "disconnected"
    database_url := s.database_url
    using_mock := s.mock_data.isSome }

end FirebaseService

/-- C5.  If Firebase initialization raises, the constructor immediately
falls back to the mock store: `mock_data` holds the six empty collections,
`is_connected` is `True`, nothing was written to Firebase, and the health
check reports a healthy mock-backed service.  Moreover, on any state in
mock mode every embedded data operation reads from and writes to the mock
store instead of Firebase: read results are independent of the RTDB oracle,
writes leave the Firebase write log untouched and keep the service in mock
mode. -/
theorem firebase_mock_fallback_spec :
    (∀ e : String,
        (init_firebase (Except.error e)).mock_data = some emptyMockDB
      ∧ (init_firebase (Except.error e)).is_connected = true
      ∧ (init_firebase (Except.error e)).firebase_writes = []
      ∧ FirebaseService.health_check (init_firebase (Except.error e))
          = { status := "healthy", database_url := default_database_url,
              using_mock := true })
    ∧ ∀ (s : ServiceState) (m : MockDB), s.mock_data = some m →
        (∀ fb cid, FirebaseService.get_company_data fb s cid = assocFind m.companies cid)
      ∧ (∀ fb cid hours, FirebaseService.get_space_data fb s cid hours
          = pyLastSlice ((assocFind m.space_data cid).getD []) hours)
      ∧ (∀ fb cid hours, FirebaseService.get_energy_data fb s cid hours
          = pyLastSlice ((assocFind m.energy_data cid).getD []) hours)
      ∧ (∀ t cid mt payload,
            (FirebaseService.store_ai_prediction t s cid mt payload).firebase_writes
              = s.firebase_writes
          ∧ (FirebaseService.store_ai_prediction t s cid mt payload).mock_data.isSome
              = true)
      ∧ (∀ t cid payload,
            (FirebaseService.store_conflict t s cid payload).2.firebase_writes
              = s.firebase_writes
          ∧ (FirebaseService.store_conflict t s cid payload).2.mock_data.isSome = true)
      ∧ (∀ fb cid, FirebaseService.get_active_conflicts fb s cid
          = (((assocFind m.conflicts cid).getD []).map (fun p => p.2)).filter
              (fun c => c.status == "open"))
      ∧ (∀ t cid x r,
            (FirebaseService.resolve_conflict t s cid x r).2.firebase_writes
              = s.firebase_writes
          ∧ (FirebaseService.resolve_conflict t s cid x r).2.mock_data.isSome = true)
      ∧ (FirebaseService.health_check s).using_mock = true := by
  constructor
  · intro e
    exact ⟨rfl, rfl, rfl, rfl⟩
  · intro s m hm
    refine ⟨?_, ?_, ?_, ?_, ?_, ?_, ?_, ?_⟩
    · intro fb cid
      simp [FirebaseService.get_company_data, hm]
    · intro fb cid hours
      simp [FirebaseService.get_space_data, hm]
    · intro fb cid hours
      simp [FirebaseService.get_energy_data, hm]
    · intro t cid mt payload
      constructor <;> simp [FirebaseService.store_ai_prediction, hm]
    · intro t cid payload
      constructor <;> simp [FirebaseService.store_conflict, hm]
    · intro fb cid
      simp [FirebaseService.get_active_conflicts, hm]
    · intro t cid x r
      simp only [FirebaseService.resolve_conflict, hm]
      cases h1 : assocFind m.conflicts cid with
      | none => exact ⟨rfl, by simp [hm]⟩
      | some cmap =>
        dsimp only
        cases h2 : assocFind cmap x with
        | none => exact ⟨rfl, by simp [hm]⟩
        | some rr => exact ⟨rfl, by simp⟩
    · simp [FirebaseService.health_check, hm]

/-- Witness for C5: the fallback state after a failed initialization is in
mock mode, and a stored conflict goes to the mock store with no Firebase
write. -/
theorem firebase_mock_fallback_spec_witness :
    (init_firebase (Except.error "no credentials")).mock_data = some emptyMockDB
    ∧ FirebaseService.get_company_data (fun _ => none)
        (init_firebase (Except.error "no credentials")) "demo_company"
        = assocFind emptyMockDB.companies "demo_company"
    ∧ (FirebaseService.store_conflict 0 (init_firebase (Except.error "no credentials"))
        "demo_company" "overcrowding").2.firebase_writes
        = (init_firebase (Except.error "no credentials")).firebase_writes :=
  ⟨(firebase_mock_fallback_spec.1 "no credentials").1,
   (firebase_mock_fallback_spec.2 _ emptyMockDB rfl).1 (fun _ => none) "demo_company",
   ((firebase_mock_fallback_spec.2 _ emptyMockDB rfl).2.2.2.2.1
      0 "demo_company" "overcrowding").1⟩

/-- The employee loop accepts exactly the demo password paired with a
listed employee email. -/
theorem authEmployeeLoop_isSome (es : List Employee) (email password : String) :
    (FirebaseService.authEmployeeLoop es email password).isSome = true ↔
      (password = "password" ∧ email ∈ es.map (fun e => e.email)) := by
  induction es with
  | nil => simp [FirebaseService.authEmployeeLoop]
  | cons e rest ih =>
    simp only [FirebaseService.authEmployeeLoop]
    by_cases hcond : (e.email == email && password == "password") = true
    · rw [if_pos hcond]
      simp only [Bool.and_eq_true, beq_iff_eq] at hcond
      simp [hcond.1, hcond.2]
    · rw [if_neg hcond]
      rw [ih]
      simp only [Bool.and_eq_true, beq_iff_eq, not_and] at hcond
      simp only [List.map_cons, List.mem_cons]
      constructor
      · rintro ⟨hp, hmem⟩
        exact ⟨hp, Or.inr hmem⟩
      · rintro ⟨hp, hmem | hmem⟩
        · exact absurd hp (hcond hmem.symm)
        · exact ⟨hp, hmem⟩

/-- C6.  `authenticate_user` returns a user record iff the password is the
hardcoded `"password"` and the email is `"admin@demo.com"` or the email of
an employee of the demo company as recorded in the current store; in every
other case it returns `None`. -/
theorem authenticate_user_spec (fb : String → Option Company) (s : ServiceState)
    (email password : String) :
    (FirebaseService.authenticate_user fb s email password).isSome = true ↔
      (password = "password"
        ∧ (email = "admin@demo.com"
          ∨ email ∈ ((FirebaseService.get_company_data fb s "demo_company").map
              (fun c => c.employees.map (fun e => e.email))).getD [])) := by
  unfold FirebaseService.authenticate_user
  by_cases hadmin : (email == "admin@demo.com" && password == "password") = true
  · rw [if_pos hadmin]
    simp only [Bool.and_eq_true, beq_iff_eq] at hadmin
    simp [hadmin.1, hadmin.2]
  · rw [if_neg hadmin]
    simp only [Bool.and_eq_true, beq_iff_eq, not_and] at hadmin
    cases hcd : FirebaseService.get_company_data fb s "demo_company" with
    | none =>
      simp only [Option.map_none', Option.getD_none]
      constructor
      · intro h
        simp at h
      · rintro ⟨hp, hmem | hmem⟩
        · exact absurd hp (hadmin hmem)
        · simp at hmem
    | some c =>
      rw [authEmployeeLoop_isSome]
      simp only [Option.map_some', Option.getD_some]
      constructor
      · rintro ⟨hp, hmem⟩
        exact ⟨hp, Or.inr hmem⟩
      · rintro ⟨hp, hmem | hmem⟩
        · exact absurd hp (hadmin hmem)
        · exact ⟨hp, hmem⟩

/-- Reachability invariant of the mock conflict store: every stored record
carries its own key in its `id` field (as `store_conflict` always writes
it). -/
def ConflictIdsWF (m : MockDB) : Prop :=
  ∀ cid cmap, assocFind m.conflicts cid = some cmap → ∀ p ∈ cmap, p.2.id = p.1

/-- C10.  In mock mode the conflict lifecycle round-trips: storing a
conflict yields an id `c` that appears among the active conflicts with
status `'open'`; resolving `c` afterwards returns `True` and removes it
from the active conflicts; and resolving an id that was never stored
returns the falsy `None` and leaves the state unchanged. -/
theorem conflict_lifecycle_spec (s : ServiceState) (m : MockDB)
    (hm : s.mock_data = some m) (hwf : ConflictIdsWF m)
    (t u : ℕ) (company_id : String) (payload : Doc) (resolution : String) :
    ∃ c : String,
      (FirebaseService.store_conflict t s company_id payload).1 = some c
      ∧ (∃ r ∈ FirebaseService.get_active_conflicts (fun _ => [])
            (FirebaseService.store_conflict t s company_id payload).2 company_id,
          r.id = c ∧ r.status = "open")
      ∧ (FirebaseService.resolve_conflict u
            (FirebaseService.store_conflict t s company_id payload).2 company_id c
            resolution).1 = some true
      ∧ (∀ r ∈ FirebaseService.get_active_conflicts (fun _ => [])
            (FirebaseService.resolve_conflict u
              (FirebaseService.store_conflict t s company_id payload).2 company_id c
              resolution).2 company_id,
          r.id ≠ c)
      ∧ ∀ x : String,
          (∀ p ∈ (assocFind m.conflicts company_id).getD [], p.1 ≠ x) →
          FirebaseService.resolve_conflict u s company_id x resolution = (none, s) := by
  refine ⟨"conflict_" ++ toString t, ?_, ?_, ?_, ?_, ?_⟩
  · simp [FirebaseService.store_conflict, hm]
  · refine ⟨{ id := "conflict_" ++ toString t
              payload := payload
              timestamp := t
              status := "open"
              company_id := company_id
              resolution := none
              resolved_at := none }, ?_, rfl, rfl⟩
    simp only [FirebaseService.store_conflict, FirebaseService.get_active_conflicts, hm]
    rw [assocFind_assocInsert_self, Option.getD_some]
    refine List.mem_filter.mpr ⟨?_, by simp⟩
    exact List.mem_map.mpr ⟨_, self_mem_assocInsert _ _ _, rfl⟩
  · simp only [FirebaseService.store_conflict, FirebaseService.resolve_conflict, hm]
    rw [assocFind_assocInsert_self]
    dsimp only
    rw [assocFind_assocInsert_self]
  · intro r hr
    simp only [FirebaseService.store_conflict, FirebaseService.resolve_conflict,
      FirebaseService.get_active_conflicts, hm] at hr
    rw [assocFind_assocInsert_self] at hr
    dsimp only at hr
    rw [assocFind_assocInsert_self] at hr
    dsimp only at hr
    rw [assocFind_assocInsert_self, Option.getD_some] at hr
    obtain ⟨hr1, hr2⟩ := List.mem_filter.mp hr
    obtain ⟨p, hp, rfl⟩ := List.mem_map.mp hr1
    rcases mem_assocInsert hp with hpe | ⟨hp1, hpk⟩
    · subst hpe
      simp at hr2
    · rcases mem_assocInsert hp1 with hqe | ⟨hq1, hqk⟩
      · exact absurd (congrArg Prod.fst hqe) hpk
      · cases h0 : assocFind m.conflicts company_id with
        | none =>
          rw [h0, Option.getD_none] at hq1
          exact absurd hq1 (List.not_mem_nil _)
        | some cm =>
          rw [h0, Option.getD_some] at hq1
          rw [hwf company_id cm h0 p hq1]
          exact hpk
  · intro x hx
    simp only [FirebaseService.resolve_conflict, hm]
    cases h0 : assocFind m.conflicts company_id with
    | none => rfl
    | some cm =>
      dsimp only
      rw [assocFind_eq_none]
      intro p hp
      exact hx p (by rw [h0, Option.getD_some]; exact hp)

/-- Witness for C10: the lifecycle at the fallback mock state, whose empty
conflict store trivially satisfies the invariant. -/
theorem conflict_lifecycle_spec_witness :
    ∃ c : String,
      (FirebaseService.store_conflict 0 (init_firebase (Except.error "boom"))
          "demo_company" "overcrowding").1 = some c
      ∧ (∃ r ∈ FirebaseService.get_active_conflicts (fun _ => [])
            (FirebaseService.store_conflict 0 (init_firebase (Except.error "boom"))
              "demo_company" "overcrowding").2 "demo_company",
          r.id = c ∧ r.status = "open")
      ∧ (FirebaseService.resolve_conflict 1
            (FirebaseService.store_conflict 0 (init_firebase (Except.error "boom"))
              "demo_company" "overcrowding").2 "demo_company" c
            "rescheduled").1 = some true
      ∧ (∀ r ∈ FirebaseService.get_active_conflicts (fun _ => [])
            (FirebaseService.resolve_conflict 1
              (FirebaseService.store_conflict 0 (init_firebase (Except.error "boom"))
                "demo_company" "overcrowding").2 "demo_company" c
              "rescheduled").2 "demo_company",
          r.id ≠ c)
      ∧ ∀ x : String,
          (∀ p ∈ (assocFind emptyMockDB.conflicts "demo_company").getD [], p.1 ≠ x) →
          FirebaseService.resolve_conflict 1 (init_firebase (Except.error "boom"))
            "demo_company" x "rescheduled"
            = (none, init_firebase (Except.error "boom")) :=
  conflict_lifecycle_spec (init_firebase (Except.error "boom")) emptyMockDB rfl
    (by intro cid cmap h p hp; simp [assocFind, emptyMockDB] at h)
    0 1 "demo_company" "overcrowding" "rescheduled"

/-! ## C8 — the Flask login endpoint reads the wrong JSON key -/

/-- `request.get_json()` for the login endpoint, with string values. -/
abbrev JsonBody := List (String × String)

/-- Python truthiness of a `d.get(k)` result: `None` and `""` are falsy. -/
def pyTruthy : Option String → Bool
  | none => false
  | some s => !(s == "")

/-- Responses of the Flask login endpoint. -/
inductive FlaskLoginResult : Type
  | err (status : ℕ) (message : String)
  | ok (email : String)
deriving DecidableEq

/-- The Flask login endpoint (`flask_backend/app.py` 260–306): the email is
read from the JSON key `'demo@company.com'` — not `'email'` — then the
missing-credentials check, then the `'@' in email` check; the success
payload (JWT token and user dict) is summarised by the accepted email. -/
def flask_login (body : JsonBody) : FlaskLoginResult :=
  let email := assocFind body "demo@company.com"
  let password := assocFind body "password"
  if !(pyTruthy email) || !(pyTruthy password) then
    FlaskLoginResult.err 400 "Email and password required"
  else if (email.getD "").contains '@' && pyTruthy password then
    FlaskLoginResult.ok (email.getD "")
  else
    FlaskLoginResult.err 401 "Invalid credentials"

/-- C8.  A request body without the key `'demo@company.com'` — in
particular any body using the conventional keys `'email'` and `'password'`
— extracts no email, so the endpoint answers
`400 Email and password required` regardless of the credentials. -/
theorem flask_login_wrong_key_spec (body : JsonBody)
    (h : assocFind body "demo@company.com" = none) :
    flask_login body = FlaskLoginResult.err 400 "Email and password required" := by
  unfold flask_login
  rw [h]
  rfl

/-- Witness for C8: a conventional body with valid demo credentials is
still answered 400. -/
theorem flask_login_wrong_key_spec_witness :
    flask_login [("email", "admin@demo.com"), ("password", "password")]
      = FlaskLoginResult.err 400 "Email and password required" :=
  flask_login_wrong_key_spec _ (by decide)

/-! ## C9 — the FastAPI login swallows its own 401 -/

/-- The outcome of a FastAPI endpoint: a payload, or an `HTTPException`
carrying a status and detail. -/
inductive HTTPResult (α : Type) : Type
  | ok (v : α)
  | httpError (status : ℕ) (detail : String)
deriving DecidableEq

/-- The login request model of `Backend/main.py` (`company_code` omitted). -/
structure LoginRequest where
  email : String
  password : String
  user_type : String
deriving DecidableEq

/-- The user payload of a successful FastAPI login (the fields depending on
`user_type`, the echoed email, and the mock token). -/
structure FastapiLoginUser where
  name : String
  role : String
  department : String
  employee_id : String
  email : String
  token : String
deriving DecidableEq

/-- The `user_data` dict of the success path. -/
def mkFastapiUser (r : LoginRequest) : FastapiLoginUser :=
  { name := if r.user_type == "employer" then "Sarah Johnson" else "Michael Chen"
    role := if r.user_type == "employer" then "HR Manager"
      else "Chief Executive Officer"
    department := if r.user_type == "employer" then "Human Resources"
      else "Executive Office"
    employee_id := if r.user_type == "employer" then "HR001" else "EXE001"
    email := r.email
    token := "mock_jwt_token_12345" }

/-- `str(e)` for a FastAPI `HTTPException`: `"<status>: <detail>"`. -/
def strOfHTTPException (status : ℕ) (detail : String) : String :=
  toString status ++ ": " ++ detail

/-- The try-block body of the FastAPI login (`Backend/main.py` 277–305):
truthy email and password succeed, otherwise
`raise HTTPException(401, "Invalid credentials")`. -/
def fastapi_login_body (r : LoginRequest) : HTTPResult FastapiLoginUser :=
  if !(r.email == "") && !(r.password == "") then HTTPResult.ok (mkFastapiUser r)
  else HTTPResult.httpError 401 "Invalid credentials"

/-- The whole endpoint: the blanket `except Exception as e` also catches the
401 `HTTPException` (it is an `Exception`) and re-raises
`HTTPException(500, str(e))`. -/
def fastapi_login (r : LoginRequest) : HTTPResult FastapiLoginUser :=
  match fastapi_login_body r with
  | HTTPResult.ok v => HTTPResult.ok v
  | HTTPResult.httpError status detail =>
      HTTPResult.httpError 500 (strOfHTTPException status detail)

/-- C9.  A login request with an empty email or password is answered by a
500 error carrying the stringified 401 — never by a 401 response. -/
theorem fastapi_login_missing_credentials_spec (r : LoginRequest)
    (h : r.email = "" ∨ r.password = "") :
    fastapi_login r
        = HTTPResult.httpError 500 (strOfHTTPException 401 "Invalid credentials")
    ∧ ∀ d, fastapi_login r ≠ HTTPResult.httpError 401 d := by
  have hbody : fastapi_login_body r = HTTPResult.httpError 401 "Invalid credentials" := by
    unfold fastapi_login_body
    rcases h with h | h <;> simp [h]
  constructor
  · unfold fastapi_login
    rw [hbody]
  · intro d hcontra
    unfold fastapi_login at hcontra
    rw [hbody] at hcontra
    simp at hcontra

/-- Witness for C9: an empty email with a non-empty password yields the 500. -/
theorem fastapi_login_missing_credentials_spec_witness :
    fastapi_login { email := "", password := "secret", user_type := "employer" }
        = HTTPResult.httpError 500 (strOfHTTPException 401 "Invalid credentials")
    ∧ ∀ d, fastapi_login { email := "", password := "secret", user_type := "employer" }
        ≠ HTTPResult.httpError 401 d :=
  fastapi_login_missing_credentials_spec _ (Or.inl rfl)

/-! ## C7 — the per-endpoint exception-handling pattern

The four backend files define 93 HTTP endpoints.  Each endpoint either
wraps its whole body in `try: ... except Exception: <500 response>` or has
no handler at all; the table below records, per endpoint, its file, route,
handler function and whether the blanket handler is present (a transcription
of the survey of every route in `Backend/main.py`, `Backend/app.py`,
`Backend/Dashboard API.py` and `flask_backend/app.py`). -/

/-- One HTTP endpoint of the backends. -/
structure EndpointMeta where
  file : String
  route : String
  handler : String
  hasBlanketHandler : Bool
deriving DecidableEq

set_option maxHeartbeats 1000000 in
/-- All 93 endpoints of the four backend files, in file order. -/
def endpoints : List EndpointMeta :=
  [
   ⟨"Backend/main.py", "/api/auth/login", "login", true⟩,
   ⟨"Backend/main.py", "/api/auth/logout", "logout", false⟩,
   ⟨"Backend/main.py", "/api/data/occupancy", "get_occupancy_data", true⟩,
   ⟨"Backend/main.py", "/api/data/spaces", "get_space_data", true⟩,
   ⟨"Backend/main.py", "/api/data/environmental", "get_environmental_data", true⟩,
   ⟨"Backend/main.py", "/api/data/weekly-trend", "get_weekly_trend", true⟩,
   ⟨"Backend/main.py", "/api/data/zone-heatmap", "get_zone_heatmap", true⟩,
   ⟨"Backend/main.py", "/api/employees", "get_employees", true⟩,
   ⟨"Backend/main.py", "/api/spaces/detailed", "get_detailed_spaces", true⟩,
   ⟨"Backend/main.py", "/api/alerts", "get_alerts", true⟩,
   ⟨"Backend/main.py", "/api/analytics/predictions", "get_predictions", true⟩,
   ⟨"Backend/main.py", "/api/analytics/optimization", "get_optimization_suggestions", true⟩,
   ⟨"Backend/main.py", "/api/reports/export/{report_type}", "export_report", true⟩,
   ⟨"Backend/main.py", "/api/employees/add", "add_employee", true⟩,
   ⟨"Backend/main.py", "/api/employees/{employee_id}", "update_employee", true⟩,
   ⟨"Backend/main.py", "/api/employees/{employee_id}", "delete_employee", true⟩,
   ⟨"Backend/main.py", "/api/spaces/add", "add_space", true⟩,
   ⟨"Backend/main.py", "/api/dashboard/summary", "get_dashboard_summary", true⟩,
   ⟨"Backend/main.py", "/api/dashboard/export/{report_type}", "export_report", true⟩,
   ⟨"Backend/main.py", "/api/dashboard/alerts", "get_dashboard_alerts", true⟩,
   ⟨"Backend/main.py", "/api/dashboard/predictions", "get_dashboard_predictions", true⟩,
   ⟨"Backend/main.py", "/api/dashboard/optimization", "get_dashboard_optimization_suggestions", true⟩,
   ⟨"Backend/main.py", "/api/dashboard/user-activity", "get_dashboard_user_activity", true⟩,
   ⟨"Backend/main.py", "/api/dashboard/recommendations", "get_dashboard_space_recommendations", true⟩,
   ⟨"Backend/main.py", "/api/dashboard/health", "dashboard_health_check", false⟩,
   ⟨"Backend/main.py", "/api/dashboard/metrics/summary", "get_dashboard_metrics_summary", true⟩,
   ⟨"Backend/main.py", "/api/energy/dashboard", "get_energy_dashboard", true⟩,
   ⟨"Backend/main.py", "/api/energy/predictions", "get_energy_predictions", true⟩,
   ⟨"Backend/main.py", "/api/energy/optimization", "get_energy_optimization", true⟩,
   ⟨"Backend/main.py", "/api/energy/analysis", "get_energy_analysis", true⟩,
   ⟨"Backend/main.py", "/api/health", "health_check", false⟩,
   ⟨"Backend/app.py", "/api/auth/login", "login", true⟩,
   ⟨"Backend/app.py", "/api/auth/logout", "logout", false⟩,
   ⟨"Backend/app.py", "/api/data/occupancy", "get_occupancy_data", true⟩,
   ⟨"Backend/app.py", "/api/data/spaces", "get_space_data", true⟩,
   ⟨"Backend/app.py", "/api/data/environmental", "get_environmental_data", true⟩,
   ⟨"Backend/app.py", "/api/data/weekly-trend", "get_weekly_trend", true⟩,
   ⟨"Backend/app.py", "/api/data/zone-heatmap", "get_zone_heatmap", true⟩,
   ⟨"Backend/app.py", "/api/employees", "get_employees", true⟩,
   ⟨"Backend/app.py", "/api/employees/add", "add_employee", true⟩,
   ⟨"Backend/app.py", "/api/employees/<int:employee_id>", "update_employee", true⟩,
   ⟨"Backend/app.py", "/api/employees/<int:employee_id>", "delete_employee", true⟩,
   ⟨"Backend/app.py", "/api/spaces/detailed", "get_detailed_spaces", true⟩,
   ⟨"Backend/app.py", "/api/spaces/add", "add_space", true⟩,
   ⟨"Backend/app.py", "/api/alerts", "get_alerts", true⟩,
   ⟨"Backend/app.py", "/api/analytics/predictions", "get_predictions", true⟩,
   ⟨"Backend/app.py", "/api/analytics/optimization", "get_optimization_suggestions", true⟩,
   ⟨"Backend/app.py", "/api/dashboard/summary", "get_dashboard_summary", true⟩,
   ⟨"Backend/app.py", "/api/dashboard/alerts", "get_dashboard_alerts", true⟩,
   ⟨"Backend/app.py", "/api/dashboard/predictions", "get_dashboard_predictions", true⟩,
   ⟨"Backend/app.py", "/api/dashboard/optimization", "get_dashboard_optimization_suggestions", true⟩,
   ⟨"Backend/app.py", "/api/dashboard/user-activity", "get_dashboard_user_activity", true⟩,
   ⟨"Backend/app.py", "/api/dashboard/recommendations", "get_dashboard_space_recommendations", true⟩,
   ⟨"Backend/app.py", "/api/dashboard/health", "dashboard_health_check", false⟩,
   ⟨"Backend/app.py", "/api/dashboard/metrics/summary", "get_dashboard_metrics_summary", true⟩,
   ⟨"Backend/app.py", "/api/energy/dashboard", "get_energy_dashboard", true⟩,
   ⟨"Backend/app.py", "/api/energy/predictions", "get_energy_predictions", true⟩,
   ⟨"Backend/app.py", "/api/energy/optimization", "get_energy_optimization", true⟩,
   ⟨"Backend/app.py", "/api/energy/analysis", "get_energy_analysis", true⟩,
   ⟨"Backend/app.py", "/api/reports/export/<report_type>", "export_report", true⟩,
   ⟨"Backend/app.py", "/api/dashboard/export/<report_type>", "export_dashboard_report", true⟩,
   ⟨"Backend/app.py", "/api/health", "health_check", false⟩,
   ⟨"Backend/Dashboard API.py", "/export/{report_type}", "export_report", true⟩,
   ⟨"Backend/Dashboard API.py", "/alerts", "get_alerts", true⟩,
   ⟨"Backend/Dashboard API.py", "/predictions", "get_predictions", true⟩,
   ⟨"Backend/Dashboard API.py", "/optimization", "get_optimization_suggestions", true⟩,
   ⟨"Backend/Dashboard API.py", "/user-activity", "get_user_activity", true⟩,
   ⟨"Backend/Dashboard API.py", "/recommendations", "get_space_recommendations", true⟩,
   ⟨"Backend/Dashboard API.py", "/health", "health_check", false⟩,
   ⟨"Backend/Dashboard API.py", "/metrics/summary", "get_metrics_summary", true⟩,
   ⟨"flask_backend/app.py", "/api/auth/login", "login", true⟩,
   ⟨"flask_backend/app.py", "/api/auth/logout", "logout", false⟩,
   ⟨"flask_backend/app.py", "/api/dashboard/summary", "get_dashboard_summary", true⟩,
   ⟨"flask_backend/app.py", "/api/data/occupancy", "get_occupancy_data", true⟩,
   ⟨"flask_backend/app.py", "/api/data/spaces", "get_spaces_data", true⟩,
   ⟨"flask_backend/app.py", "/api/data/environmental", "get_environmental_data", true⟩,
   ⟨"flask_backend/app.py", "/api/data/weekly-trend", "get_weekly_trend", true⟩,
   ⟨"flask_backend/app.py", "/api/data/zone-heatmap", "get_zone_heatmap", true⟩,
   ⟨"flask_backend/app.py", "/api/employees", "get_employees", true⟩,
   ⟨"flask_backend/app.py", "/api/spaces/detailed", "get_detailed_spaces", true⟩,
   ⟨"flask_backend/app.py", "/api/analytics/predictions", "get_ai_predictions", true⟩,
   ⟨"flask_backend/app.py", "/api/analytics/optimization", "get_optimization_analytics", true⟩,
   ⟨"flask_backend/app.py", "/api/energy/dashboard", "get_energy_dashboard", true⟩,
   ⟨"flask_backend/app.py", "/api/energy/predictions", "get_energy_predictions", true⟩,
   ⟨"flask_backend/app.py", "/api/energy/optimization", "get_energy_optimization", true⟩,
   ⟨"flask_backend/app.py", "/api/conflicts", "get_conflicts", true⟩,
   ⟨"flask_backend/app.py", "/api/conflicts/<conflict_id>/resolve", "resolve_conflict", true⟩,
   ⟨"flask_backend/app.py", "/api/reports/export/<report_type>", "export_report", true⟩,
   ⟨"flask_backend/app.py", "/api/health", "health_check", true⟩,
   ⟨"flask_backend/app.py", "/api/employees/add", "add_employee", true⟩,
   ⟨"flask_backend/app.py", "/api/employees/<int:employee_id>", "update_employee", true⟩,
   ⟨"flask_backend/app.py", "/api/employees/<int:employee_id>", "delete_employee", true⟩,
   ⟨"flask_backend/app.py", "/api/spaces/add", "add_space", true⟩]

/-- An endpoint's behaviour on the outcome of its body: with a blanket
handler an escaping exception becomes a 500 response carrying its message
(the Flask variants return `jsonify({'error': ...}), 500`, the FastAPI
variants `raise HTTPException(500, str(e))`); without one it propagates to
the framework. -/
def run_endpoint (m : EndpointMeta) (body : Except String (HTTPResult Unit)) :
    Except String (HTTPResult Unit) :=
  if m.hasBlanketHandler then
    match body with
    | Except.ok v => Except.ok v
    | Except.error e => Except.ok (HTTPResult.httpError 500 e)
  else body

/-- C7 exactly as claimed, for refutation: every endpoint of the backends
catches any exception and returns a 500 response with an error message. -/
def claimC7 : Prop :=
  ∀ m ∈ endpoints, ∀ e : String,
    run_endpoint m (Except.error e) = Except.ok (HTTPResult.httpError 500 e)

/-- The Flask logout endpoint, one of the eight without a handler. -/
def flaskLogoutMeta : EndpointMeta :=
  { file := "flask_backend/app.py"
    route := "/api/auth/logout"
    handler := "logout"
    hasBlanketHandler := false }

/-- The Flask login endpoint, which has the blanket handler. -/
def flaskLoginMeta : EndpointMeta :=
  { file := "flask_backend/app.py"
    route := "/api/auth/login"
    handler := "login"
    hasBlanketHandler := true }

/-- C7 is false on the code: the Flask logout endpoint
(`flask_backend/app.py` 308–312) has no try/except, so an exception raised
in it propagates instead of becoming a 500 response. -/
theorem endpoint_handler_counterexample : ¬ claimC7 := by
  intro h
  have hm : flaskLogoutMeta ∈ endpoints := by decide
  have hrun := h _ hm "boom"
  simp [run_endpoint, flaskLogoutMeta] at hrun

/-- C7 (amended).  Every endpoint of the backends except the three `logout`,
the three `health_check` and the two `dashboard_health_check` endpoints
(8 of 93) wraps its body in a blanket `except Exception` handler and turns
any exception into a 500 response carrying an error message; in those eight
the exception propagates to the framework. -/
theorem endpoint_handler_spec :
    (∀ m ∈ endpoints, m.hasBlanketHandler = true →
      ∀ e : String, run_endpoint m (Except.error e)
        = Except.ok (HTTPResult.httpError 500 e))
    ∧ (∀ m ∈ endpoints, m.hasBlanketHandler = false →
        m.handler = "logout" ∨ m.handler = "health_check"
          ∨ m.handler = "dashboard_health_check")
    ∧ (endpoints.filter fun m => !m.hasBlanketHandler).length = 8
    ∧ endpoints.length = 93 := by
  refine ⟨?_, by decide, by decide, by decide⟩
  intro m _ hh e
  simp [run_endpoint, hh]

/-- Witness for the amended C7: the Flask login endpoint turns an exception
into a 500, and the Flask logout endpoint is one of the eight without a
handler. -/
theorem endpoint_handler_spec_witness :
    run_endpoint flaskLoginMeta (Except.error "boom")
      = Except.ok (HTTPResult.httpError 500 "boom")
    ∧ (flaskLogoutMeta.handler = "logout"
        ∨ flaskLogoutMeta.handler = "health_check"
        ∨ flaskLogoutMeta.handler = "dashboard_health_check") :=
  ⟨endpoint_handler_spec.1 flaskLoginMeta (by decide) rfl "boom",
   endpoint_handler_spec.2.1 flaskLogoutMeta (by decide) rfl⟩

end Synergy
